import Mathlib

/-!
Verification development for the SocraTask AI Nexus core
(`src/ai_nexus/hardware_profiler.py`, `src/ai_nexus/model_manager.py`,
`src/ai_nexus/nexus_core.py`).

The Python code is shallowly embedded: floats become `ℚ`, Python `None`
becomes `Option`, dataclasses become structures, and the environment-
dependent probe readings (temperatures, benchmark timings, census data)
become explicit parameters.  Python's leading underscores on method names
are dropped.  Truthiness tests on optional floats (`if x:` is false for
both `None` and `0.0`) are modelled explicitly.
-/

/-- ASCII lowercasing of one character, modelling `str.lower` on the
ASCII range (the only range the task-type keywords exercise). -/
def lower_char (c : Char) : Char :=
  if 65 ≤ c.toNat ∧ c.toNat ≤ 90 then Char.ofNat (c.toNat + 32) else c

/-- Model of Python `str.lower()` (ASCII range). -/
def str_lower (s : String) : String :=
  ⟨s.data.map lower_char⟩

/-- Does the second character list start with the first one? -/
def leads_with : List Char → List Char → Bool
  | [], _ => true
  | a :: as, b :: bs => a == b && leads_with as bs
  | _ :: _, [] => false

/-- Does `needle` occur contiguously inside `hay`?  Models Python's
substring test `needle in hay`. -/
def occurs_in (needle : List Char) : List Char → Bool
  | [] => needle.isEmpty
  | c :: t => leads_with needle (c :: t) || occurs_in needle t

/-- Python `needle in hay` on strings. -/
def py_in (needle hay : String) : Bool :=
  occurs_in needle.data hay.data

/-- Python truthiness of an optional float: `None` and `0.0` are falsy. -/
def opt_truthy (o : Option ℚ) : Bool :=
  match o with
  | none => false
  | some x => decide (x ≠ 0)

/-- The float value carried by an optional float; only consulted on
branches where the option is known truthy. -/
def opt_val (o : Option ℚ) : ℚ :=
  o.getD 0

/-- Python `x and x >= t` for an optional float `x`: truthiness of `x`
followed by the comparison.  Used by the GPU-layer / VRAM threshold
checks throughout the source. -/
def vram_at_least (o : Option ℚ) (t : ℚ) : Bool :=
  opt_truthy o && decide (t ≤ opt_val o)

/-- Python `x if x else 0` on an optional float. -/
def py_or_zero (o : Option ℚ) : ℚ :=
  match o with
  | none => 0
  | some t => if t = 0 then 0 else t

/-- Dataclass `HardwareCapabilityVector` of `hardware_profiler.py`.
`special_instructions` is a list of capability tags. -/
structure HardwareCapabilityVector where
  architecture : String
  cpu_cores : ℕ
  cpu_threads : ℕ
  cpu_speed : ℚ
  ram_gb : ℚ
  gpu_name : Option String
  gpu_vram_gb : Option ℚ
  storage_tier : String
  thermal_profile : String
  special_instructions : List String
deriving DecidableEq

/-- Dataclass `ModelSpec` of `model_manager.py`. -/
structure ModelSpec where
  name : String
  family : String
  size : String
  variant : String
  quantization : String
  disk_size_gb : ℚ
  ram_requirement_gb : ℚ
  recommended_hardware : String
  description : String
  download_url : String
  checksum : String
deriving DecidableEq

/-- Catalog entry `qwen2.5-0.5b-q4_k_m.gguf`. -/
def spec_05b : ModelSpec :=
  { name := "qwen2.5-0.5b-q4_k_m.gguf"
    family := "Qwen2.5"
    size := "0.5B"
    variant := "Qwen2.5"
    quantization := "Q4_K_M"
    disk_size_gb := 0.3
    ram_requirement_gb := 0.5
    recommended_hardware := "8GB+ RAM"
    description := "General purpose model, efficient quantization"
    download_url := "https://huggingface.co/Qwen/Qwen2.5-0.5B-Instruct-GGUF/resolve/main/qwen2.5-0.5b-instruct-q4_k_m.gguf"
    checksum := "checksum_placeholder_0.5b_q4" }

/-- Catalog entry `qwen2.5-1.5b-q4_k_m.gguf`. -/
def spec_15b : ModelSpec :=
  { name := "qwen2.5-1.5b-q4_k_m.gguf"
    family := "Qwen2.5"
    size := "1.5B"
    variant := "Qwen2.5"
    quantization := "Q4_K_M"
    disk_size_gb := 0.9
    ram_requirement_gb := 1.2
    recommended_hardware := "8GB+ RAM"
    description := "General purpose model with good capabilities"
    download_url := "https://huggingface.co/Qwen/Qwen2.5-1.5B-Instruct-GGUF/resolve/main/qwen2.5-1.5b-instruct-q4_k_m.gguf"
    checksum := "checksum_placeholder_1.5b_q4" }

/-- Catalog entry `qwen2.5-7b-q6_k.gguf`. -/
def spec_7b : ModelSpec :=
  { name := "qwen2.5-7b-q6_k.gguf"
    family := "Qwen2.5"
    size := "7B"
    variant := "Qwen2.5"
    quantization := "Q6_K"
    disk_size_gb := 5.2
    ram_requirement_gb := 6.5
    recommended_hardware := "16GB+ RAM, 4GB+ VRAM recommended"
    description := "Balanced general purpose model"
    download_url := "https://huggingface.co/Qwen/Qwen2.5-7B-Instruct-GGUF/resolve/main/qwen2.5-7b-instruct-q6_k.gguf"
    checksum := "checksum_placeholder_7b_q6" }

/-- Catalog entry `qwen2.5-32b-q8_0.gguf`. -/
def spec_32b : ModelSpec :=
  { name := "qwen2.5-32b-q8_0.gguf"
    family := "Qwen2.5"
    size := "32B"
    variant := "Qwen2.5"
    quantization := "Q8_0"
    disk_size_gb := 24.0
    ram_requirement_gb := 32.0
    recommended_hardware := "32GB+ RAM, 8GB+ VRAM recommended"
    description := "High capability general purpose model"
    download_url := "https://huggingface.co/Qwen/Qwen2.5-32B-Instruct-GGUF/resolve/main/qwen2.5-32b-instruct-q8_0.gguf"
    checksum := "checksum_placeholder_32b_q8" }

/-- Catalog entry `qwen2.5-coder-1.5b-q4_k_m.gguf`. -/
def spec_coder_15b : ModelSpec :=
  { name := "qwen2.5-coder-1.5b-q4_k_m.gguf"
    family := "Qwen2.5-Coder"
    size := "1.5B"
    variant := "Qwen2.5-Coder"
    quantization := "Q4_K_M"
    disk_size_gb := 0.9
    ram_requirement_gb := 1.2
    recommended_hardware := "8GB+ RAM"
    description := "Specialized for code generation and debugging"
    download_url := "https://huggingface.co/Qwen/Qwen2.5-Coder-1.5B-Instruct-GGUF/resolve/main/qwen2.5-coder-1.5b-instruct-q4_k_m.gguf"
    checksum := "checksum_placeholder_coder_1.5b_q4" }

/-- Catalog entry `qwen2.5-coder-7b-q6_k.gguf`. -/
def spec_coder_7b : ModelSpec :=
  { name := "qwen2.5-coder-7b-q6_k.gguf"
    family := "Qwen2.5-Coder"
    size := "7B"
    variant := "Qwen2.5-Coder"
    quantization := "Q6_K"
    disk_size_gb := 5.2
    ram_requirement_gb := 6.5
    recommended_hardware := "16GB+ RAM, 4GB+ VRAM recommended"
    description := "Advanced code generation and debugging model"
    download_url := "https://huggingface.co/Qwen/Qwen2.5-Coder-7B-Instruct-GGUF/resolve/main/qwen2.5-coder-7b-instruct-q6_k.gguf"
    checksum := "checksum_placeholder_coder_7b_q6" }

/-- Catalog entry `qwen2.5-math-1.5b-q4_k_m.gguf`. -/
def spec_math_15b : ModelSpec :=
  { name := "qwen2.5-math-1.5b-q4_k_m.gguf"
    family := "Qwen2.5-Math"
    size := "1.5B"
    variant := "Qwen2.5-Math"
    quantization := "Q4_K_M"
    disk_size_gb := 0.9
    ram_requirement_gb := 1.2
    recommended_hardware := "8GB+ RAM"
    description := "Specialized for mathematical reasoning"
    download_url := "https://huggingface.co/Qwen/Qwen2.5-Math-1.5B-Instruct-GGUF/resolve/main/qwen2.5-math-1.5b-instruct-q4_k_m.gguf"
    checksum := "checksum_placeholder_math_1.5b_q4" }

/-- Catalog entry `qwen2.5-math-7b-q6_k.gguf`. -/
def spec_math_7b : ModelSpec :=
  { name := "qwen2.5-math-7b-q6_k.gguf"
    family := "Qwen2.5-Math"
    size := "7B"
    variant := "Qwen2.5-Math"
    quantization := "Q6_K"
    disk_size_gb := 5.2
    ram_requirement_gb := 6.5
    recommended_hardware := "16GB+ RAM, 4GB+ VRAM recommended"
    description := "Advanced mathematical reasoning model"
    download_url := "https://huggingface.co/Qwen/Qwen2.5-Math-7B-Instruct-GGUF/resolve/main/qwen2.5-math-7b-instruct-q6_k.gguf"
    checksum := "checksum_placeholder_math_7b_q6" }

/-- Catalog entry `qwen2.5-vl-2b-q4_k_m.gguf`. -/
def spec_vl_2b : ModelSpec :=
  { name := "qwen2.5-vl-2b-q4_k_m.gguf"
    family := "Qwen2.5-VL"
    size := "2B"
    variant := "Qwen2.5-VL"
    quantization := "Q4_K_M"
    disk_size_gb := 1.5
    ram_requirement_gb := 2.0
    recommended_hardware := "8GB+ RAM, 4GB+ VRAM recommended"
    description := "Vision-language model for image analysis"
    download_url := "https://huggingface.co/Qwen/Qwen2.5-VL-2B-Instruct-GGUF/resolve/main/qwen2.5-vl-2b-instruct-q4_k_m.gguf"
    checksum := "checksum_placeholder_vl_2b_q4" }

/-- The built-in reference catalog constructed by `ModelManager` at
start-up, in its source order. -/
def model_catalog : List ModelSpec :=
  [spec_05b, spec_15b, spec_7b, spec_32b,
   spec_coder_15b, spec_coder_7b,
   spec_math_15b, spec_math_7b,
   spec_vl_2b]

/-- Test `model.size in ["7B", "32B"]` from the suitability filter. -/
def size_large (m : ModelSpec) : Bool :=
  decide (m.size = "7B" ∨ m.size = "32B")

/-- The per-descriptor suitability test inlined in the filter loop of
`ModelManager.get_model_recommendations`: the RAM check, then for large
models (with a truthy GPU VRAM reading) the 0.7x GPU-offload heuristic,
otherwise membership for the small size classes only. -/
def is_suitable (v : HardwareCapabilityVector) (m : ModelSpec) : Bool :=
  if m.ram_requirement_gb ≤ v.ram_gb then
    if opt_truthy v.gpu_vram_gb = true ∧ size_large m = true then
      decide (m.ram_requirement_gb * 0.7 ≤ opt_val v.gpu_vram_gb)
    else if size_large m = false then
      true
    else
      false
  else
    false

/-- The `suitable_models` list of `get_model_recommendations`: the
catalog filtered by `is_suitable`, then sorted by `ram_requirement_gb`
descending (Python's `list.sort` is stable, matched here by a stable
insertion sort under the total `≥` relation on the key). -/
def suitable_models (catalog : List ModelSpec) (v : HardwareCapabilityVector) : List ModelSpec :=
  List.insertionSort (fun a b => b.ram_requirement_gb ≤ a.ram_requirement_gb)
    (catalog.filter (is_suitable v))

/-- Configuration dict of the "Balanced Daily Driver" profile. -/
structure BalancedConfiguration where
  context_window : ℕ
  gpu_layers : ℕ
  threads : ℕ
deriving DecidableEq

/-- The "Balanced Daily Driver" profile dict. -/
structure BalancedDailyDriver where
  name : String
  description : String
  recommended_model : String
  configuration : BalancedConfiguration
deriving DecidableEq

/-- One routing-rule dict of the "Specialist Ensemble" configuration. -/
structure RoutingRule where
  task : String
  model : String
deriving DecidableEq

/-- Configuration dict of the "Specialist Ensemble" profile. -/
structure EnsembleConfiguration where
  routing_rules : List RoutingRule
  context_window : ℕ
  gpu_layers : ℕ
deriving DecidableEq

/-- The "Specialist Ensemble" profile dict. -/
structure SpecialistEnsemble where
  name : String
  description : String
  recommended_models : List String
  configuration : EnsembleConfiguration
deriving DecidableEq

/-- Configuration dict of the "Speed Demon" profile. -/
structure SpeedConfiguration where
  context_window : ℕ
  gpu_layers : ℕ
  threads : ℕ
  fallback_model : String
deriving DecidableEq

/-- The "Speed Demon" profile dict. -/
structure SpeedDemon where
  name : String
  description : String
  recommended_model : String
  configuration : SpeedConfiguration
deriving DecidableEq

/-- Configuration dict of the "Power User Config" profile
(`custom_rules` starts empty in the source). -/
structure PowerConfiguration where
  context_window : ℕ
  gpu_layers : ℕ
  threads : ℕ
  custom_rules : List String
deriving DecidableEq

/-- The "Power User Config" profile dict. -/
structure PowerUserConfig where
  name : String
  description : String
  recommended_model : String
  configuration : PowerConfiguration
deriving DecidableEq

/-- The `profiles` dict produced by `ModelManager._generate_ai_profiles`,
with its four fixed keys. -/
structure AIProfiles where
  balanced_daily_driver : BalancedDailyDriver
  specialist_ensemble : SpecialistEnsemble
  speed_demon : SpeedDemon
  power_user_config : PowerUserConfig
deriving DecidableEq

/-- Name of an optional model.  In the Python source an access
`model.name` on `None` would raise; the `none` branch is unreachable on
every call path because profiles are only generated for a nonempty
suitable list, on which the fallback chains below always produce a
model. -/
def name_of (o : Option ModelSpec) : String :=
  match o with
  | some m => m.name
  | none => ""

/-- Python `x.name if x else y.name` on optional models. -/
def py_name_or (x y : Option ModelSpec) : String :=
  match x with
  | some m => m.name
  | none => name_of y

namespace ModelManager

/-- The `tiny_model` pick of `_generate_ai_profiles`: first suitable
model of size exactly `0.5B`, else first whose size contains `0.5`,
else the head of the suitable list. -/
def tiny_model (suitable : List ModelSpec) : Option ModelSpec :=
  (suitable.find? (fun m => decide (m.size = "0.5B"))) <|>
    ((suitable.find? (fun m => py_in "0.5" m.size)) <|> suitable.head?)

/-- The `small_model` pick: first of size `1.5B`, else first whose size
contains `1.5`, else `tiny_model`. -/
def small_model (suitable : List ModelSpec) : Option ModelSpec :=
  (suitable.find? (fun m => decide (m.size = "1.5B"))) <|>
    ((suitable.find? (fun m => py_in "1.5" m.size)) <|> tiny_model suitable)

/-- The `medium_model` pick: first of size `7B`, else first whose size
contains `7`, else `small_model`. -/
def medium_model (suitable : List ModelSpec) : Option ModelSpec :=
  (suitable.find? (fun m => decide (m.size = "7B"))) <|>
    ((suitable.find? (fun m => py_in "7" m.size)) <|> small_model suitable)

/-- Method `ModelManager._generate_ai_profiles`: the four fixed AI profiles
derived from the capability vector and the sorted suitable list. -/
def generate_ai_profiles (v : HardwareCapabilityVector)
    (suitable : List ModelSpec) : AIProfiles :=
  let tiny := tiny_model suitable
  let small := small_model suitable
  let medium := medium_model suitable
  let coder := (suitable.find? (fun m => py_in "Coder" m.variant)) <|> small
  let math := (suitable.find? (fun m => py_in "Math" m.variant)) <|> small
  let general := (suitable.find? (fun m => decide (m.variant = "Qwen2.5"))) <|> small
  { balanced_daily_driver :=
      { name := "Balanced Daily Driver"
        description := "A single capable model for all tasks"
        recommended_model := py_name_or medium small
        configuration :=
          { context_window := 4096
            gpu_layers := if vram_at_least v.gpu_vram_gb 4 = true then 20 else 0
            threads := v.cpu_cores } }
    specialist_ensemble :=
      { name := "Specialist Ensemble"
        description := "Multiple smaller, fine-tuned models with automatic routing"
        recommended_models := [name_of coder, name_of math, name_of general]
        configuration :=
          { routing_rules :=
              [{ task := "coding", model := name_of coder },
               { task := "math", model := name_of math },
               { task := "general", model := name_of general }]
            context_window := 4096
            gpu_layers := if vram_at_least v.gpu_vram_gb 4 = true then 10 else 0 } }
    speed_demon :=
      { name := "Speed Demon"
        description := "Tiny model for near-instant responses, with option for larger models"
        recommended_model := py_name_or tiny small
        configuration :=
          { context_window := 2048
            gpu_layers := 0
            threads := v.cpu_cores
            fallback_model := py_name_or medium small } }
    power_user_config :=
      { name := "Power User Config"
        description := "Manual control to define everything"
        recommended_model :=
          if 16 ≤ v.ram_gb ∧ vram_at_least v.gpu_vram_gb 4 = true then
            name_of medium
          else
            name_of small
        configuration :=
          { context_window := if 16 ≤ v.ram_gb then 8192 else 4096
            gpu_layers :=
              if vram_at_least v.gpu_vram_gb 8 = true then 30
              else if vram_at_least v.gpu_vram_gb 4 = true then 20
              else 5
            threads := v.cpu_threads
            custom_rules := [] } } }

end ModelManager

/-- The result dict of `ModelManager.get_model_recommendations`.
`profiles := none` models the initial empty `profiles` dict `{}` that is
kept when no model is suitable. -/
structure RecommendationResult where
  primary_model : Option ModelSpec
  alternative_models : List ModelSpec
  profiles : Option AIProfiles
deriving DecidableEq

namespace ModelManager

/-- Method `ModelManager.get_model_recommendations`: filter the catalog by
hardware suitability, rank by RAM requirement descending, take the head
as primary and the next three as alternatives, and generate the four AI
profiles; when nothing is suitable the initial empty result is
returned. -/
def get_model_recommendations (catalog : List ModelSpec)
    (v : HardwareCapabilityVector) : RecommendationResult :=
  match suitable_models catalog v with
  | [] => { primary_model := none, alternative_models := [], profiles := none }
  | primary :: rest =>
      { primary_model := some primary
        alternative_models := rest.take 3
        profiles := some (generate_ai_profiles v (primary :: rest)) }

end ModelManager

/-- Result record of `HardwareProfiler._thermal_characterization`
(`test_duration` is pure wall-clock telemetry and is not modelled). -/
structure ThermalData where
  initial_temp : Option ℚ
  max_temp : ℚ
  temp_delta : ℚ
  temp_readings : List ℚ
  thermal_profile : String
deriving DecidableEq

namespace HardwareProfiler

/-- The threshold classification applied to `temp_delta` at the end of
`_thermal_characterization`. -/
def thermal_profile_of_delta (delta : ℚ) : String :=
  if delta < 10 then "Excellent"
  else if delta < 20 then "Good"
  else if delta < 30 then "Balanced"
  else "Limited"

/-- One iteration of the temperature-polling loop: a truthy reading
above the running maximum replaces it, and every truthy reading is
appended to `temp_readings`. -/
def thermal_step (acc : ℚ × List ℚ) (sample : Option ℚ) : ℚ × List ℚ :=
  match sample with
  | none => acc
  | some t =>
      ((if t ≠ 0 ∧ acc.1 < t then t else acc.1),
       (if t ≠ 0 then acc.2 ++ [t] else acc.2))

/-- Method `HardwareProfiler._thermal_characterization`, as a function of the
initial temperature reading and the per-second readings observed while
the background load thread runs. -/
def thermal_characterization (initial_temp : Option ℚ)
    (samples : List (Option ℚ)) : ThermalData :=
  let pair := samples.foldl thermal_step (py_or_zero initial_temp, [])
  let temp_delta := pair.1 - py_or_zero initial_temp
  { initial_temp := initial_temp
    max_temp := pair.1
    temp_delta := temp_delta
    temp_readings := pair.2
    thermal_profile := thermal_profile_of_delta temp_delta }

/-- Method `HardwareProfiler._calculate_overall_score`: three lower-clamped
component scores, a weighted average, then a final clamp to [0, 100]. -/
def calculate_overall_score (latency memory_pressure parallel_time : ℚ) : ℚ :=
  let latency_score := max 0 (100 - latency / 10)
  let memory_score := max 0 (100 - memory_pressure / 10)
  let parallel_score := max 0 (100 - parallel_time * 1000)
  let overall_score := latency_score * 0.4 + memory_score * 0.3 + parallel_score * 0.3
  min 100 (max 0 overall_score)

end HardwareProfiler

/-- Result record of `HardwareProfiler._baseline_ai_benchmarking`. -/
structure BenchmarkData where
  latency_ms_per_token : ℚ
  memory_pressure_mb : ℚ
  parallel_performance : ℚ
  overall_score : ℚ
deriving DecidableEq

namespace HardwareProfiler

/-- Method `HardwareProfiler._baseline_ai_benchmarking`, as a function of the
three measured quantities (latency in ms per token, resident-set delta
in MB, parallel-probe time in seconds). -/
def baseline_ai_benchmarking (latency_ms mem_mb parallel_s : ℚ) : BenchmarkData :=
  { latency_ms_per_token := latency_ms
    memory_pressure_mb := mem_mb
    parallel_performance := parallel_s
    overall_score := calculate_overall_score latency_ms mem_mb parallel_s }

end HardwareProfiler

/-- The census record assembled by `HardwareProfiler._hardware_census`,
as a function of the probe readings. -/
structure CensusData where
  cpu_architecture : String
  cpu_vendor : String
  cpu_model : String
  cpu_cores : ℕ
  cpu_threads : ℕ
  cpu_max_freq : ℚ
  special_instructions : List String
  ram_gb : ℚ
  gpu_name : Option String
  gpu_vram_gb : Option ℚ
  storage_total_gb : ℚ
  storage_free_gb : ℚ
  storage_tier : String
deriving DecidableEq

namespace HardwareProfiler

/-- Method `HardwareProfiler._create_capability_vector`: combines the census
and thermal results into the immutable capability vector.  The
benchmark record is passed by the caller but never read, exactly as in
the source. -/
def create_capability_vector (census : CensusData) (thermal : ThermalData)
    (_benchmark : BenchmarkData) : HardwareCapabilityVector :=
  { architecture := census.cpu_architecture
    cpu_cores := census.cpu_cores
    cpu_threads := census.cpu_threads
    cpu_speed := census.cpu_max_freq
    ram_gb := census.ram_gb
    gpu_name := census.gpu_name
    gpu_vram_gb := census.gpu_vram_gb
    storage_tier := census.storage_tier
    thermal_profile := thermal.thermal_profile
    special_instructions := census.special_instructions }

/-- Method `HardwareProfiler.run_full_diagnostic` with a progress callback
supplied: runs the three stages on their probe readings and returns the
capability vector together with the `(percent, message)` trace of
callback invocations, in order. -/
def run_full_diagnostic (census : CensusData) (initial_temp : Option ℚ)
    (temp_samples : List (Option ℚ)) (latency_ms mem_mb parallel_s : ℚ) :
    HardwareCapabilityVector × List (ℕ × String) :=
  let thermal := thermal_characterization initial_temp temp_samples
  let benchmark := baseline_ai_benchmarking latency_ms mem_mb parallel_s
  (create_capability_vector census thermal benchmark,
   [(30, "Hardware census complete"),
    (60, "Thermal characterization complete"),
    (90, "Benchmarking complete")])

/-- The `recommendations` dict of `HardwareProfiler.get_recommendations`
(the profiler-level, string-valued recommendation path). -/
structure ProfilerRecommendations where
  primary_model : String
  gpu_layers : String
  strategy : String
  profiles : List (String × String)
deriving DecidableEq

/-- The fixed `profiles` dict attached by
`HardwareProfiler.get_recommendations`. -/
def profiler_profiles : List (String × String) :=
  [("balanced_daily_driver", "Qwen2.5-7B (Q6_K) for all tasks"),
   ("specialist_ensemble", "Multiple smaller models (Coder, Math, General) with automatic routing"),
   ("speed_demon", "Tiny model (0.5B) for instant responses, with option for larger models"),
   ("power_user_config", "Manual control for advanced users")]

/-- Method `HardwareProfiler.get_recommendations`: the threshold-based primary
model choice (note that 16 GB RAM together with a 4 GB GPU selects the
7B/Q6_K model on this path). -/
def get_recommendations (v : HardwareCapabilityVector) : ProfilerRecommendations :=
  if 32 ≤ v.ram_gb ∧ vram_at_least v.gpu_vram_gb 8 = true then
    { primary_model := "Qwen2.5-32B (Q8_0)"
      gpu_layers := "All layers"
      strategy := "Power User - Full GPU acceleration"
      profiles := profiler_profiles }
  else if 16 ≤ v.ram_gb ∧ vram_at_least v.gpu_vram_gb 4 = true then
    { primary_model := "Qwen2.5-7B (Q6_K)"
      gpu_layers := "20-30 layers"
      strategy := "Balanced Performance"
      profiles := profiler_profiles }
  else if 8 ≤ v.ram_gb then
    { primary_model := "Qwen2.5-1.5B (Q4_K_M)"
      gpu_layers := "5-10 layers if GPU available"
      strategy := "Efficient Operation"
      profiles := profiler_profiles }
  else
    { primary_model := "Qwen2.5-0.5B (IQ4_XS)"
      gpu_layers := "None (CPU only)"
      strategy := "Minimal Resource Usage"
      profiles := profiler_profiles }

end HardwareProfiler

/-- An orchestration rule appended by
`ModelManager.add_orchestration_rule`. -/
structure OrchestrationRule where
  condition : String
  action : String
  priority : ℤ
  id : ℕ
deriving DecidableEq

namespace ModelManager

/-- Method `ModelManager.add_orchestration_rule`: appends a rule whose id is
the current length of the rule list. -/
def add_orchestration_rule (rules : List OrchestrationRule)
    (condition action : String) (priority : ℤ) : List OrchestrationRule :=
  rules ++ [{ condition := condition, action := action,
              priority := priority, id := rules.length }]

end ModelManager

/-- The mutable `ModelManager` attributes read or written by the pure
core (the models directory and the opaque loaded-model handles live in
the excluded I/O layer). -/
structure ModelManagerState where
  model_catalog : List ModelSpec
  downloaded_models : List ModelSpec
  orchestration_rules : List OrchestrationRule
deriving DecidableEq

namespace ModelManager

/-- Method `ModelManager.get_model_recommendations` viewed as a state
transformer: the method body only reads `self.model_catalog` and
assigns no attribute, so the manager state is returned unchanged. -/
def get_model_recommendations_s (s : ModelManagerState)
    (v : HardwareCapabilityVector) : RecommendationResult × ModelManagerState :=
  (get_model_recommendations s.model_catalog v, s)

end ModelManager

/-- The `QwenNexus` attributes relevant to the precondition claims:
the capability vector produced by the diagnostic (absent before it has
run) and the `initialized` flag set at the end of `initialize`. -/
structure NexusState where
  capability_vector : Option HardwareCapabilityVector
  init_done : Bool
deriving DecidableEq

namespace QwenNexus

/-- Method `QwenNexus.get_model_recommendations`.  `Except.error` models a
raised exception; `Except.ok none` models the early `return {}` taken
when no capability vector exists.  No path of this method raises. -/
def get_model_recommendations (s : NexusState) :
    Except String (Option RecommendationResult) :=
  match s.capability_vector with
  | none => Except.ok none
  | some v => Except.ok (some (ModelManager.get_model_recommendations model_catalog v))

/-- Method `QwenNexus._select_model_for_task`: the hardcoded keyword match on
the lowercased task type.  The orchestration rule list is carried on
the state but never consulted here, as in the source. -/
def select_model_for_task (_rules : List OrchestrationRule)
    (task_type : String) : String :=
  let t := str_lower task_type
  if py_in "code" t = true ∨ py_in "programming" t = true then
    "qwen2.5-coder-7b-q6_k.gguf"
  else if py_in "math" t = true ∨ py_in "calculate" t = true then
    "qwen2.5-math-7b-q6_k.gguf"
  else if py_in "image" t = true ∨ py_in "vision" t = true then
    "qwen2.5-vl-2b-q4_k_m.gguf"
  else
    "qwen2.5-7b-q6_k.gguf"

/-- Method `QwenNexus._simulate_ai_response` (placeholder inference). -/
def simulate_ai_response (task_type query : String) : String :=
  "Simulated response for " ++ task_type ++ " task: " ++ query.take 50 ++ "..."

/-- Method `QwenNexus.execute_task`: raises a `RuntimeError` when the nexus is
not yet marked initialized, otherwise selects a model for the task and
returns the simulated response. -/
def execute_task (s : NexusState) (rules : List OrchestrationRule)
    (task_type query : String) : Except String String :=
  if s.init_done = true then
    let _model_name := select_model_for_task rules task_type
    Except.ok (simulate_ai_response task_type query)
  else
    Except.error "QwenNexus not initialized. Call initialize() first."

/-- Method `QwenNexus.add_custom_orchestration_rule` simply forwards to
`ModelManager.add_orchestration_rule`. -/
def add_custom_orchestration_rule (rules : List OrchestrationRule)
    (condition action : String) (priority : ℤ) : List OrchestrationRule :=
  ModelManager.add_orchestration_rule rules condition action priority

end QwenNexus

/-- The capability vector of the end-to-end scenario: 16 GB RAM, a 4 GB
GPU and 8 physical cores (remaining fields are immaterial to the
recommendation path and fixed arbitrarily). -/
def v₁ : HardwareCapabilityVector :=
  { architecture := "x86_64"
    cpu_cores := 8
    cpu_threads := 16
    cpu_speed := 3
    ram_gb := 16
    gpu_name := some "Test GPU"
    gpu_vram_gb := some 4
    storage_tier := "Fast"
    thermal_profile := "Good"
    special_instructions := ["AVX2"] }

/-- A capability vector whose RAM (0.25 GB) is below the smallest
catalog requirement (0.5 GB). -/
def v₂ : HardwareCapabilityVector :=
  { architecture := "armv7l"
    cpu_cores := 2
    cpu_threads := 2
    cpu_speed := 1
    ram_gb := 0.25
    gpu_name := none
    gpu_vram_gb := none
    storage_tier := "Slow"
    thermal_profile := "Unknown"
    special_instructions := [] }

/-- A concrete census record for exercising the diagnostic pipeline. -/
def census₀ : CensusData :=
  { cpu_architecture := "x86_64"
    cpu_vendor := "GenuineIntel"
    cpu_model := "Test CPU"
    cpu_cores := 8
    cpu_threads := 16
    cpu_max_freq := 3
    special_instructions := ["AVX2"]
    ram_gb := 16
    gpu_name := some "Test GPU"
    gpu_vram_gb := some 4
    storage_total_gb := 500
    storage_free_gb := 200
    storage_tier := "Fast" }

/-- Clamp `x` to the interval `[lo, hi]`. -/
def clip (x lo hi : ℚ) : ℚ :=
  min hi (max lo x)

/-- Modelled from the spec: the overall-score formula as the
specification words it, with every component score clipped to [0, 100]
before weighting.  Stated only for comparison against
`HardwareProfiler.calculate_overall_score`, whose component scores are
clamped below but not capped above. -/
def spec_overall_score (latency mem par : ℚ) : ℚ :=
  clip (0.4 * clip (100 - latency / 10) 0 100 +
        0.3 * clip (100 - mem / 10) 0 100 +
        0.3 * clip (100 - par * 1000) 0 100) 0 100

/-- Claim C9: per-task model selection depends only on the task-type
string; any two rule lists (in particular a list before and after any
sequence of `add_custom_orchestration_rule` calls) yield the same
selected model, because the selection step never consults the rule
list. -/
theorem C9_selection_ignores_rules :
    ∀ (rules rules' : List OrchestrationRule)
      (adds : List (String × String × ℤ)) (task_type : String),
      QwenNexus.select_model_for_task rules task_type =
        QwenNexus.select_model_for_task rules' task_type ∧
      QwenNexus.select_model_for_task
          (adds.foldl
            (fun rs a => QwenNexus.add_custom_orchestration_rule rs a.1 a.2.1 a.2.2)
            rules) task_type =
        QwenNexus.select_model_for_task rules task_type :=
  fun _ _ _ _ => ⟨rfl, rfl⟩

/-- Claim C10: `get_model_recommendations` is idempotent and
deterministic: it leaves the manager state unchanged, and a second call
on the resulting state with the same capability vector returns an
identical result (in particular an identical primary model and
identical profiles). -/
theorem C10_recommendations_idempotent :
    ∀ (s : ModelManagerState) (v : HardwareCapabilityVector),
      (ModelManager.get_model_recommendations_s s v).2 = s ∧
      (ModelManager.get_model_recommendations_s
          (ModelManager.get_model_recommendations_s s v).2 v).1 =
        (ModelManager.get_model_recommendations_s s v).1 ∧
      (ModelManager.get_model_recommendations_s
          (ModelManager.get_model_recommendations_s s v).2 v).1.primary_model =
        (ModelManager.get_model_recommendations_s s v).1.primary_model ∧
      (ModelManager.get_model_recommendations_s
          (ModelManager.get_model_recommendations_s s v).2 v).1.profiles =
        (ModelManager.get_model_recommendations_s s v).1.profiles :=
  fun _ _ => ⟨rfl, rfl, rfl, rfl⟩

/-- Claim C7 (amended): with a progress callback supplied, the callback
is invoked once after each of the three stages, and the percent values
it receives are exactly the fixed checkpoints 30, 60, 90 in that order;
0 and 100 are never reported. -/
theorem C7_progress_checkpoints :
    ∀ (census : CensusData) (initial_temp : Option ℚ)
      (samples : List (Option ℚ)) (latency mem par : ℚ),
      (HardwareProfiler.run_full_diagnostic census initial_temp samples
          latency mem par).2.map Prod.fst = [30, 60, 90] :=
  fun _ _ _ _ _ _ => rfl

/-- Claim C7 counterexample: on a concrete diagnostic run the emitted
percent sequence is `[30, 60, 90]`, not the claimed
`[0, 30, 60, 90, 100]`. -/
theorem C7_counterexample :
    (HardwareProfiler.run_full_diagnostic census₀ none [] 0 0 0).2.map Prod.fst
      ≠ [0, 30, 60, 90, 100] := by
  intro h
  simp [HardwareProfiler.run_full_diagnostic] at h

/-- Claim C4 (amended): calling `QwenNexus.get_model_recommendations`
before a capability vector exists returns the empty dict as a silent
no-op (never an exception); the precondition-violation error exists
only on `execute_task`, which raises when the nexus is not yet
initialized. -/
theorem C4_uninitialized_behaviour :
    ∀ (s : NexusState) (rules : List OrchestrationRule) (task_type query : String),
      (s.capability_vector = none →
        QwenNexus.get_model_recommendations s = Except.ok none) ∧
      (s.init_done = false →
        QwenNexus.execute_task s rules task_type query =
          Except.error "QwenNexus not initialized. Call initialize() first.") := by
  intro s rules task_type query
  constructor
  · intro h
    simp [QwenNexus.get_model_recommendations, h]
  · intro h
    simp [QwenNexus.execute_task, h]

/-- Claim C4 counterexample: on a fresh nexus state (no capability
vector, not initialized) `get_model_recommendations` returns the empty
result successfully instead of signalling a precondition violation. -/
theorem C4_counterexample :
    QwenNexus.get_model_recommendations
        { capability_vector := none, init_done := false } = Except.ok none :=
  rfl

/-- Claim C4 witness: both amended behaviours at a concrete fresh
state. -/
theorem C4_witness :
    QwenNexus.get_model_recommendations
        { capability_vector := none, init_done := false } = Except.ok none ∧
    QwenNexus.execute_task { capability_vector := none, init_done := false }
        [] "writing" "hello" =
      Except.error "QwenNexus not initialized. Call initialize() first." :=
  ⟨(C4_uninitialized_behaviour { capability_vector := none, init_done := false }
      [] "writing" "hello").1 rfl,
   (C4_uninitialized_behaviour { capability_vector := none, init_done := false }
      [] "writing" "hello").2 rfl⟩

/-- Claim C5 (amended): for every latency, memory-pressure and
parallel-time input, `overall_score` equals the weighted sum of the
three lower-clamped component scores, with only the final result
clipped to [0, 100]; in particular the score always lies in [0, 100]. -/
theorem C5_overall_score_formula :
    ∀ latency mem par : ℚ,
      HardwareProfiler.calculate_overall_score latency mem par =
        min 100 (max 0
          (0.4 * max 0 (100 - latency / 10) + 0.3 * max 0 (100 - mem / 10) +
            0.3 * max 0 (100 - par * 1000))) ∧
      0 ≤ HardwareProfiler.calculate_overall_score latency mem par ∧
      HardwareProfiler.calculate_overall_score latency mem par ≤ 100 := by
  intro latency mem par
  refine ⟨?_, ?_, ?_⟩
  · simp only [HardwareProfiler.calculate_overall_score]
    ring_nf
  · simp only [HardwareProfiler.calculate_overall_score]
    exact le_min (by norm_num) (le_max_left 0 _)
  · simp only [HardwareProfiler.calculate_overall_score]
    exact min_le_left 100 _

/-- Claim C5 counterexample: at latency = -1000 ms, memory = 1000 MB,
parallel = 1 s, the code's score is 80 while the claimed per-term
clipped formula gives 40, so the two formulas differ. -/
theorem C5_counterexample :
    HardwareProfiler.calculate_overall_score (-1000) 1000 1 = 80 ∧
    spec_overall_score (-1000) 1000 1 = 40 ∧
    HardwareProfiler.calculate_overall_score (-1000) 1000 1 ≠
      spec_overall_score (-1000) 1000 1 := by
  refine ⟨?_, ?_, ?_⟩ <;>
    norm_num [HardwareProfiler.calculate_overall_score, spec_overall_score, clip,
      max_def, min_def]

/-- Claim C6: thermal-profile classification is a pure function of
`temp_delta` with boundaries `delta < 10 → Excellent`,
`10 ≤ delta < 20 → Good`, `20 ≤ delta < 30 → Balanced`,
`30 ≤ delta → Limited`, verified at the four boundary inputs 9, 10, 29
and 30; the thermal stage's reported profile is exactly this function
of its reported delta. -/
theorem C6_thermal_profile_boundaries :
    HardwareProfiler.thermal_profile_of_delta 9 = "Excellent" ∧
    HardwareProfiler.thermal_profile_of_delta 10 = "Good" ∧
    HardwareProfiler.thermal_profile_of_delta 29 = "Balanced" ∧
    HardwareProfiler.thermal_profile_of_delta 30 = "Limited" ∧
    (∀ delta : ℚ,
      (HardwareProfiler.thermal_profile_of_delta delta = "Excellent" ↔ delta < 10) ∧
      (HardwareProfiler.thermal_profile_of_delta delta = "Good" ↔
        10 ≤ delta ∧ delta < 20) ∧
      (HardwareProfiler.thermal_profile_of_delta delta = "Balanced" ↔
        20 ≤ delta ∧ delta < 30) ∧
      (HardwareProfiler.thermal_profile_of_delta delta = "Limited" ↔ 30 ≤ delta)) ∧
    (∀ (initial_temp : Option ℚ) (samples : List (Option ℚ)),
      (HardwareProfiler.thermal_characterization initial_temp samples).thermal_profile =
        HardwareProfiler.thermal_profile_of_delta
          (HardwareProfiler.thermal_characterization initial_temp samples).temp_delta) := by
  refine ⟨by norm_num [HardwareProfiler.thermal_profile_of_delta],
    by norm_num [HardwareProfiler.thermal_profile_of_delta],
    by norm_num [HardwareProfiler.thermal_profile_of_delta],
    by norm_num [HardwareProfiler.thermal_profile_of_delta],
    ?_, fun _ _ => rfl⟩
  intro delta
  unfold HardwareProfiler.thermal_profile_of_delta
  split_ifs with h1 h2 h3 <;>
    refine ⟨?_, ?_, ?_, ?_⟩ <;>
    constructor <;>
    intro h <;>
    simp_all <;>
    linarith

/-- Folding the temperature-polling step over readings that are all
unavailable leaves the accumulator untouched. -/
lemma thermal_foldl_all_none :
    ∀ (samples : List (Option ℚ)) (acc : ℚ × List ℚ),
      (∀ s ∈ samples, s = none) →
      samples.foldl HardwareProfiler.thermal_step acc = acc := by
  intro samples
  induction samples with
  | nil => intro acc _; rfl
  | cons hd tl ih =>
      intro acc h
      have hh : hd = none := h hd (by simp)
      subst hh
      exact ih acc (fun s hs => h s (by simp [hs]))

/-- Claim C3 (amended): when no temperature source is available (the
initial reading and every polled reading are absent), the thermal stage
still completes; the stored initial reading stays absent, the maximum
temperature and the delta are 0 (the absent initial reading is treated
as 0), no readings are recorded, and the reported thermal profile is
"Excellent" (the delta-0 classification), not "Unknown". -/
theorem C3_no_temp_source_completes :
    ∀ (samples : List (Option ℚ)),
      (∀ s ∈ samples, s = none) →
      HardwareProfiler.thermal_characterization none samples =
        { initial_temp := none, max_temp := 0, temp_delta := 0,
          temp_readings := [], thermal_profile := "Excellent" } := by
  intro samples h
  unfold HardwareProfiler.thermal_characterization
  rw [thermal_foldl_all_none samples _ h]
  norm_num [py_or_zero, HardwareProfiler.thermal_profile_of_delta]

/-- Claim C3 counterexample: with an absent initial reading and three
absent polled readings, the stage reports thermal profile "Excellent",
not the claimed "Unknown". -/
theorem C3_counterexample :
    (HardwareProfiler.thermal_characterization none
        [none, none, none]).thermal_profile = "Excellent" ∧
    (HardwareProfiler.thermal_characterization none
        [none, none, none]).thermal_profile ≠ "Unknown" ∧
    (HardwareProfiler.thermal_characterization none [none, none, none]).max_temp = 0 ∧
    (HardwareProfiler.thermal_characterization none [none, none, none]).temp_delta = 0 := by
  refine ⟨?_, ?_, ?_, ?_⟩ <;>
    (norm_num [HardwareProfiler.thermal_characterization, HardwareProfiler.thermal_step,
       py_or_zero, HardwareProfiler.thermal_profile_of_delta, List.foldl];
     try decide)

/-- Claim C3 witness: the amended statement applied to one absent
reading. -/
theorem C3_witness :
    HardwareProfiler.thermal_characterization none [none] =
      { initial_temp := none, max_temp := 0, temp_delta := 0,
        temp_readings := [], thermal_profile := "Excellent" } :=
  C3_no_temp_source_completes [none] (by simp)

/-- A descriptor whose RAM requirement exceeds the vector's RAM is
rejected by the suitability filter outright. -/
lemma is_suitable_of_ram_lt {v : HardwareCapabilityVector} {m : ModelSpec}
    (h : v.ram_gb < m.ram_requirement_gb) : is_suitable v m = false := by
  unfold is_suitable
  rw [if_neg (not_le.mpr h)]

/-- Claim C8: whenever the vector's RAM is below the smallest catalog
requirement (0.5 GB) no descriptor is suitable, and whenever no
descriptor is suitable the recommendation is the valid terminal empty
result — absent primary model, no alternatives, empty profiles dict —
with profile generation skipped (the total function returns normally,
it cannot raise). -/
theorem C8_empty_recommendation_is_valid :
    ∀ v : HardwareCapabilityVector,
      (v.ram_gb < 0.5 → suitable_models model_catalog v = []) ∧
      (suitable_models model_catalog v = [] →
        ModelManager.get_model_recommendations model_catalog v =
          { primary_model := none, alternative_models := [], profiles := none }) := by
  intro v
  constructor
  · intro h
    have hf : model_catalog.filter (is_suitable v) = [] := by
      rw [List.filter_eq_nil_iff]
      intro m hm
      simp [model_catalog] at hm
      have hram : (0.5 : ℚ) ≤ m.ram_requirement_gb := by
        rcases hm with rfl | rfl | rfl | rfl | rfl | rfl | rfl | rfl | rfl <;>
          norm_num [spec_05b, spec_15b, spec_7b, spec_32b, spec_coder_15b,
            spec_coder_7b, spec_math_15b, spec_math_7b, spec_vl_2b]
      simp [is_suitable_of_ram_lt (lt_of_lt_of_le h hram)]
    rw [suitable_models, hf]
    rfl
  · intro h
    simp only [ModelManager.get_model_recommendations, h]

/-- Claim C8 witness: the empty terminal result at a concrete vector
with 0.25 GB of RAM. -/
theorem C8_witness :
    ModelManager.get_model_recommendations model_catalog v₂ =
      { primary_model := none, alternative_models := [], profiles := none } :=
  (C8_empty_recommendation_is_valid v₂).2
    ((C8_empty_recommendation_is_valid v₂).1 (by norm_num [v₂]))

/-- Every catalog descriptor has a positive RAM requirement. -/
lemma ram_pos_of_mem : ∀ m ∈ model_catalog, 0 < m.ram_requirement_gb := by
  intro m hm
  simp [model_catalog] at hm
  rcases hm with rfl | rfl | rfl | rfl | rfl | rfl | rfl | rfl | rfl <;>
    norm_num [spec_05b, spec_15b, spec_7b, spec_32b, spec_coder_15b,
      spec_coder_7b, spec_math_15b, spec_math_7b, spec_vl_2b]

/-- Characterization of the suitability test for descriptors with a
positive RAM requirement (Python's truthiness test on the VRAM reading
coincides with presence there, because a present reading of `0.0` can
never satisfy the positive 0.7x offload bound). -/
lemma is_suitable_iff (v : HardwareCapabilityVector) (m : ModelSpec)
    (hram : 0 < m.ram_requirement_gb) :
    is_suitable v m = true ↔
      (m.ram_requirement_gb ≤ v.ram_gb ∧
        ((m.size = "7B" ∨ m.size = "32B") →
          ∃ g, v.gpu_vram_gb = some g ∧ m.ram_requirement_gb * 0.7 ≤ g)) := by
  unfold is_suitable
  split_ifs with h1 h2 h3
  · -- RAM fits, VRAM truthy and large size: the 0.7x bound decides
    obtain ⟨ht, hl⟩ := h2
    cases hv : v.gpu_vram_gb with
    | none => rw [hv] at ht; simp [opt_truthy] at ht
    | some g =>
        rw [hv] at ht
        have hl' : m.size = "7B" ∨ m.size = "32B" := by
          simpa [size_large] using hl
        simp [opt_val, h1, hl', decide_eq_true_eq]
  · -- RAM fits, small size class: suitable by the RAM condition alone
    have hl' : ¬(m.size = "7B" ∨ m.size = "32B") := by
      simpa [size_large] using h3
    simp [h1, hl']
  · -- RAM fits, large size class, VRAM absent or 0.0: not suitable
    have hl : size_large m = true := by
      cases hsz : size_large m with
      | false => exact absurd hsz h3
      | true => rfl
    have hl' : m.size = "7B" ∨ m.size = "32B" := by simpa [size_large] using hl
    have ht : opt_truthy v.gpu_vram_gb = false := by
      cases hop : opt_truthy v.gpu_vram_gb with
      | false => rfl
      | true => exact absurd ⟨hop, hl⟩ h2
    cases hv : v.gpu_vram_gb with
    | none => simp [hl']
    | some g =>
        rw [hv] at ht
        have hg : g = 0 := by simpa [opt_truthy] using ht
        subst hg
        have : ¬(m.ram_requirement_gb * 0.7 ≤ 0) := by
          have := mul_pos hram (show (0:ℚ) < 0.7 by norm_num)
          linarith
        simp [hl', this]
  · -- RAM requirement exceeds available RAM
    simp [h1]

/-- Claim C2: a catalog descriptor is in the suitable set of
`get_model_recommendations` iff its RAM requirement is within the
vector's RAM, and, when its size class is 7B or 32B, a GPU VRAM reading
is present and satisfies the 0.7x offload heuristic; descriptors
outside the large classes need only the RAM condition. -/
theorem C2_suitability_filter :
    ∀ (v : HardwareCapabilityVector) (m : ModelSpec), m ∈ model_catalog →
      (m ∈ suitable_models model_catalog v ↔
        (m.ram_requirement_gb ≤ v.ram_gb ∧
          ((m.size = "7B" ∨ m.size = "32B") →
            ∃ g, v.gpu_vram_gb = some g ∧ m.ram_requirement_gb * 0.7 ≤ g))) := by
  intro v m hm
  have hperm := List.perm_insertionSort
    (fun a b : ModelSpec => b.ram_requirement_gb ≤ a.ram_requirement_gb)
    (model_catalog.filter (is_suitable v))
  rw [suitable_models, hperm.mem_iff, List.mem_filter,
    is_suitable_iff v m (ram_pos_of_mem m hm)]
  simp [hm]

/-- Claim C2 witness: at the 16 GB RAM / 4 GB VRAM vector the 7B
descriptor is not suitable, exactly because the 0.7x offload bound
(4.55 GB) exceeds the available 4 GB of VRAM. -/
theorem C2_witness : spec_7b ∉ suitable_models model_catalog v₁ := by
  have h := C2_suitability_filter v₁ spec_7b (by simp [model_catalog])
  rw [h]
  rintro ⟨-, hbig⟩
  obtain ⟨g, hg, hle⟩ := hbig (Or.inl rfl)
  have hg4 : g = 4 := by simpa [v₁] using hg.symm
  rw [hg4] at hle
  norm_num [spec_7b] at hle

/-- At the 16 GB / 4 GB vector, the suitability filter keeps exactly
the five small-class descriptors, in catalog order: every 7B descriptor
fails the 0.7x offload bound (4.55 > 4) and the 32B descriptor fails
the RAM check. -/
lemma filter_v₁ :
    model_catalog.filter (is_suitable v₁) =
      [spec_05b, spec_15b, spec_coder_15b, spec_math_15b, spec_vl_2b] := by
  have h05 : is_suitable v₁ spec_05b = true := by
    norm_num [is_suitable, v₁, spec_05b, opt_truthy, opt_val, size_large]
    try decide
  have h15 : is_suitable v₁ spec_15b = true := by
    norm_num [is_suitable, v₁, spec_15b, opt_truthy, opt_val, size_large]
    try decide
  have h7 : is_suitable v₁ spec_7b = false := by
    norm_num [is_suitable, v₁, spec_7b, opt_truthy, opt_val, size_large]
    try decide
  have h32 : is_suitable v₁ spec_32b = false := by
    norm_num [is_suitable, v₁, spec_32b, opt_truthy, opt_val, size_large]
    try decide
  have hc15 : is_suitable v₁ spec_coder_15b = true := by
    norm_num [is_suitable, v₁, spec_coder_15b, opt_truthy, opt_val, size_large]
    try decide
  have hc7 : is_suitable v₁ spec_coder_7b = false := by
    norm_num [is_suitable, v₁, spec_coder_7b, opt_truthy, opt_val, size_large]
    try decide
  have hm15 : is_suitable v₁ spec_math_15b = true := by
    norm_num [is_suitable, v₁, spec_math_15b, opt_truthy, opt_val, size_large]
    try decide
  have hm7 : is_suitable v₁ spec_math_7b = false := by
    norm_num [is_suitable, v₁, spec_math_7b, opt_truthy, opt_val, size_large]
    try decide
  have hvl : is_suitable v₁ spec_vl_2b = true := by
    norm_num [is_suitable, v₁, spec_vl_2b, opt_truthy, opt_val, size_large]
    try decide
  simp [model_catalog, List.filter, h05, h15, h7, h32, hc15, hc7, hm15, hm7, hvl]

/-- The ranked suitable list at the 16 GB / 4 GB vector: the 2 GB VL
model first, then the three 1.5B models in catalog order, then the 0.5B
model. -/
lemma suitable_v₁ :
    suitable_models model_catalog v₁ =
      [spec_vl_2b, spec_15b, spec_coder_15b, spec_math_15b, spec_05b] := by
  rw [suitable_models, filter_v₁]
  norm_num [List.insertionSort, List.orderedInsert,
    spec_05b, spec_15b, spec_coder_15b, spec_math_15b, spec_vl_2b]

/-- Claim C1 (code bug): at the end-to-end vector (16 GB RAM, 4 GB
VRAM, 8 cores) the manager's recommendation makes the 2B VL model
primary — every 7B descriptor is filtered out because the 0.7x offload
bound 6.5 * 0.7 = 4.55 exceeds the 4 GB of VRAM — even though the 7B
entry's own `recommended_hardware` text ("16GB+ RAM, 4GB+ VRAM
recommended") and the profiler-level `get_recommendations` path both
designate the 7B/Q6_K model for exactly this hardware.  The "Balanced
Daily Driver" gpu_layers = 20 half of the claim does hold. -/
theorem C1_end_to_end_divergence :
    (ModelManager.get_model_recommendations model_catalog v₁).primary_model.map
        ModelSpec.name = some "qwen2.5-vl-2b-q4_k_m.gguf" ∧
    (ModelManager.get_model_recommendations model_catalog v₁).primary_model.map
        ModelSpec.name ≠ some "qwen2.5-7b-q6_k.gguf" ∧
    (ModelManager.get_model_recommendations model_catalog v₁).profiles.map
        (fun p => p.balanced_daily_driver.configuration.gpu_layers) = some 20 ∧
    (HardwareProfiler.get_recommendations v₁).primary_model = "Qwen2.5-7B (Q6_K)" := by
  have hrec := suitable_v₁
  refine ⟨?_, ?_, ?_, ?_⟩
  · simp [ModelManager.get_model_recommendations, hrec, spec_vl_2b]
  · simp [ModelManager.get_model_recommendations, hrec, spec_vl_2b]
  · simp only [ModelManager.get_model_recommendations, hrec,
      ModelManager.generate_ai_profiles, Option.map_some]
    norm_num [vram_at_least, opt_truthy, opt_val, v₁]
  · norm_num [HardwareProfiler.get_recommendations, vram_at_least,
      opt_truthy, opt_val, v₁]
